import Mathlib

/-!
Shallow embedding of the product-aggregate logic of the swagger-api
repository (src/controllers/productController.js, src/models/Product.js,
src/utils/cloudinary.js).

Modelling conventions:
* JS numbers are modelled as `ℚ` (the arithmetic used by the aggregate is
  `+ - * /` on decimal values).
* Mongo documents are modelled as Lean structures; a sub-document `_id` is a
  `String` field `id`.
* The database load `Product.findById` is modelled by passing its result
  (`Option Product`) into each controller function.
* The asset store (cloudinary) is modelled by oracles:
  `upload : String → Except String Image` gives the outcome of
  `uploadToCloudinary` for each file buffer (a buffer is an opaque `String`
  token), and `del : String → DeleteOutcome` gives the outcome of
  `cloudinary.uploader.destroy` for each public id.  `deleteFromCloudinary`
  re-throws a rejection (`hardFail`) and returns the result object otherwise
  (cloudinary reports an unknown id by *resolving* with `not found`, which the
  controllers never inspect).
* `Promise.all` over a list of eagerly-created promises is modelled by
  `promiseAll`: every underlying call is issued (recorded in the
  `uploadsAttempted` / `deletesAttempted` fields of `OpResult`), and the
  aggregate result is the first rejection if any, otherwise the list of
  values.
* Each controller returns an `OpResult` recording the HTTP response, whether
  `findById` was reached, which asset-store calls were issued, the product
  state persisted by `save` (if any), and whether the product record was
  deleted.
* `Product.save` runs the `pre save` hook, which recomputes `finalPrice`;
  `findByIdAndUpdate` (used by `updateProduct`) applies the update document
  without running that hook, which is Mongoose behaviour.
-/

/-- An entry of `product.images`: `_id`, `url`, `public_id`. -/
structure Image where
  id : String
  url : String
  public_id : Option String
deriving Repr, DecidableEq

/-- An entry of `product.ratings`: `user`, `rating`, `review`, `date`. -/
structure Rating where
  user : String
  rating : ℚ
  review : Option String
  date : Nat
deriving Repr, DecidableEq

/-- The fields of a product document that the aggregate logic touches. -/
structure Product where
  price : ℚ
  discount : ℚ
  finalPrice : Option ℚ
  images : List Image
  ratings : List Rating
  averageRating : ℚ
deriving Repr, DecidableEq

/-- Outcome of `cloudinary.uploader.destroy publicId`: the promise resolves
with a result object (`ok` or `notFound`, never inspected by the callers) or
rejects (`hardFail`), in which case `deleteFromCloudinary` re-throws. -/
inductive DeleteOutcome where
  | ok : DeleteOutcome
  | notFound : DeleteOutcome
  | hardFail (msg : String) : DeleteOutcome
deriving Repr, DecidableEq

/-- The HTTP response produced by a controller. -/
inductive Res where
  | ok200 (p : Product) : Res
  | okMsg (msg : String) : Res
  | err400 (msg : String) : Res
  | err404 (msg : String) : Res
  | err500 (msg : String) : Res
deriving Repr, DecidableEq

/-- Observable effects of one controller invocation. -/
structure OpResult where
  response : Res
  /-- whether `Product.findById` was reached -/
  productLoaded : Bool
  /-- file buffers for which `uploadToCloudinary` was called -/
  uploadsAttempted : List String
  /-- public ids for which `deleteFromCloudinary` was called -/
  deletesAttempted : List String
  /-- the product state written by `save`, when a save happened -/
  saved : Option Product
  /-- whether `product.deleteOne()` ran -/
  recordDeleted : Bool
deriving Repr, DecidableEq

/-- `Promise.all` over already-created promises: first rejection wins,
otherwise the list of resolved values in order. -/
def promiseAll {α : Type} : List (Except String α) → Except String (List α)
  | [] => .ok []
  | .error e :: _ => .error e
  | .ok a :: rest =>
    match promiseAll rest with
    | .error e => .error e
    | .ok as => .ok (a :: as)

/-- The `pre save` hook of `productSchema`:
`finalPrice = discount > 0 ? price - price*(discount/100) : price`. -/
def recomputeFinalPrice (price discount : ℚ) : ℚ :=
  if discount > 0 then price - price * (discount / 100) else price

/-- Running the `pre save` middleware on a document. -/
def preSave (p : Product) : Product :=
  { p with finalPrice := some (recomputeFinalPrice p.price p.discount) }

/-- `product.save()`: the document state actually persisted (after the
`pre save` hook). -/
def saveProduct (p : Product) : Product := preSave p

/-- The pure part of `productSchema.methods.updateAverageRating`: 0 for an
empty rating list, otherwise `reduce (+ rating) 0 / length`. -/
def recomputeAverageRating (ratings : List Rating) : ℚ :=
  if ratings.length = 0 then 0
  else ratings.foldl (fun acc r => acc + r.rating) 0 / (ratings.length : ℚ)

/-- `product.updateAverageRating()`: recompute `averageRating`, then
`this.save()`. -/
def updateAverageRating (p : Product) : Product :=
  saveProduct { p with averageRating := recomputeAverageRating p.ratings }

/-- `uploadProductImages` (POST images). Mirrors productController lines
176–216: reject missing/empty `req.files` before `findById`; 404 when the
product is absent; otherwise create one upload promise per file, await
`Promise.all`, and on full success append the images and `save`. -/
def uploadProductImages (findProduct : Option Product)
    (files : Option (List String))
    (upload : String → Except String Image) : OpResult :=
  match files with
  | none =>
      { response := .err400 "Please upload at least one image",
        productLoaded := false, uploadsAttempted := [], deletesAttempted := [],
        saved := none, recordDeleted := false }
  | some fs =>
    if fs.isEmpty then
      { response := .err400 "Please upload at least one image",
        productLoaded := false, uploadsAttempted := [], deletesAttempted := [],
        saved := none, recordDeleted := false }
    else
      match findProduct with
      | none =>
          { response := .err404 "Product not found",
            productLoaded := true, uploadsAttempted := [], deletesAttempted := [],
            saved := none, recordDeleted := false }
      | some p =>
        match promiseAll (fs.map upload) with
        | .error e =>
            { response := .err500 e,
              productLoaded := true, uploadsAttempted := fs, deletesAttempted := [],
              saved := none, recordDeleted := false }
        | .ok imgs =>
          let p' := saveProduct { p with images := p.images ++ imgs }
          { response := .ok200 p',
            productLoaded := true, uploadsAttempted := fs, deletesAttempted := [],
            saved := some p', recordDeleted := false }

/-- The sequential per-image deletion loop of `deleteProduct` (lines
156–160): for each image with a `public_id`, call `deleteFromCloudinary`;
a re-thrown rejection aborts the loop.  Returns the public ids for which the
call was made and the first hard-failure message, if any. -/
def deleteImagesSeq (del : String → DeleteOutcome) :
    List Image → List String × Option String
  | [] => ([], none)
  | img :: rest =>
    match img.public_id with
    | none => deleteImagesSeq del rest
    | some pid =>
      match del pid with
      | .hardFail e => ([pid], some e)
      | _ =>
        let r := deleteImagesSeq del rest
        (pid :: r.1, r.2)

/-- `deleteProduct` (lines 144–174): 404 when absent; delete each image's
asset sequentially; any thrown deletion error is caught and answered with
500 before `product.deleteOne()` runs; otherwise the record is deleted. -/
def deleteProduct (findProduct : Option Product)
    (del : String → DeleteOutcome) : OpResult :=
  match findProduct with
  | none =>
      { response := .err404 "Product not found",
        productLoaded := true, uploadsAttempted := [], deletesAttempted := [],
        saved := none, recordDeleted := false }
  | some p =>
    let r := deleteImagesSeq del p.images
    match r.2 with
    | some e =>
        { response := .err500 e,
          productLoaded := true, uploadsAttempted := [], deletesAttempted := r.1,
          saved := none, recordDeleted := false }
    | none =>
        { response := .okMsg "Product deleted successfully",
          productLoaded := true, uploadsAttempted := [], deletesAttempted := r.1,
          saved := none, recordDeleted := true }

/-- `deleteProductImage` (lines 218–258): 404 when the product or the image
`_id` is absent; call `deleteFromCloudinary` when the image has a
`public_id`; a thrown deletion error is caught and answered with 500 with
nothing removed or saved; otherwise filter the image out and `save`. -/
def deleteProductImage (findProduct : Option Product) (imageId : String)
    (del : String → DeleteOutcome) : OpResult :=
  match findProduct with
  | none =>
      { response := .err404 "Product not found",
        productLoaded := true, uploadsAttempted := [], deletesAttempted := [],
        saved := none, recordDeleted := false }
  | some p =>
    match p.images.find? (fun img => img.id == imageId) with
    | none =>
        { response := .err404 "Image not found",
          productLoaded := true, uploadsAttempted := [], deletesAttempted := [],
          saved := none, recordDeleted := false }
    | some imageToDelete =>
      match imageToDelete.public_id with
      | some pid =>
        match del pid with
        | .hardFail e =>
            { response := .err500 e,
              productLoaded := true, uploadsAttempted := [], deletesAttempted := [pid],
              saved := none, recordDeleted := false }
        | _ =>
          let p' := saveProduct
            { p with images := p.images.filter (fun img => !(img.id == imageId)) }
          { response := .okMsg "Image deleted successfully",
            productLoaded := true, uploadsAttempted := [], deletesAttempted := [pid],
            saved := some p', recordDeleted := false }
      | none =>
        let p' := saveProduct
          { p with images := p.images.filter (fun img => !(img.id == imageId)) }
        { response := .okMsg "Image deleted successfully",
          productLoaded := true, uploadsAttempted := [], deletesAttempted := [],
          saved := some p', recordDeleted := false }

/-- The `deleteFromCloudinary` calls issued by the deletion phase of
`updateProductImages` (lines 275–281): one per id of `imagesToDelete` that
resolves to an image carrying a `public_id` (all promises are created
eagerly). -/
def delPhaseCalls (p : Product) (ids : List String) : List String :=
  ids.filterMap (fun iid =>
    (p.images.find? (fun img => img.id == iid)).bind (fun img => img.public_id))

/-- First rejection among the deletion promises, in order. -/
def firstHardFail (del : String → DeleteOutcome) : List String → Option String
  | [] => none
  | pid :: rest =>
    match del pid with
    | .hardFail e => some e
    | _ => firstHardFail del rest

/-- The upload-then-save tail of `updateProductImages` (lines 286–303),
starting from the product state `p1` left by the deletion phase. -/
def updateImagesAddPhase (p1 : Product) (calls : List String)
    (files : Option (List String))
    (upload : String → Except String Image) : OpResult :=
  match files with
  | some fs =>
    if fs.isEmpty then
      let p' := saveProduct p1
      { response := .ok200 p',
        productLoaded := true, uploadsAttempted := [], deletesAttempted := calls,
        saved := some p', recordDeleted := false }
    else
      match promiseAll (fs.map upload) with
      | .error e =>
          { response := .err500 e,
            productLoaded := true, uploadsAttempted := fs, deletesAttempted := calls,
            saved := none, recordDeleted := false }
      | .ok imgs =>
        let p' := saveProduct { p1 with images := p1.images ++ imgs }
        { response := .ok200 p',
          productLoaded := true, uploadsAttempted := fs, deletesAttempted := calls,
          saved := some p', recordDeleted := false }
  | none =>
    let p' := saveProduct p1
    { response := .ok200 p',
      productLoaded := true, uploadsAttempted := [], deletesAttempted := calls,
      saved := some p', recordDeleted := false }

/-- `updateProductImages` (lines 260–310): 404 when absent; when
`imagesToDelete` is present and non-empty, await `Promise.all` of the
deletion promises — a thrown deletion error is caught and answered with 500
before the local filter, the upload phase and the `save`; otherwise filter
out every requested id, then run the upload phase and `save`. -/
def updateProductImages (findProduct : Option Product)
    (imagesToDelete : Option (List String))
    (files : Option (List String))
    (upload : String → Except String Image)
    (del : String → DeleteOutcome) : OpResult :=
  match findProduct with
  | none =>
      { response := .err404 "Product not found",
        productLoaded := true, uploadsAttempted := [], deletesAttempted := [],
        saved := none, recordDeleted := false }
  | some p =>
    match imagesToDelete with
    | some ids =>
      if ids.isEmpty then updateImagesAddPhase p [] files upload
      else
        let calls := delPhaseCalls p ids
        match firstHardFail del calls with
        | some e =>
            { response := .err500 e,
              productLoaded := true, uploadsAttempted := [], deletesAttempted := calls,
              saved := none, recordDeleted := false }
        | none =>
          let p1 := { p with
            images := p.images.filter (fun img => !(ids.contains img.id)) }
          updateImagesAddPhase p1 calls files upload
    | none => updateImagesAddPhase p [] files upload

/-- The rating-list update inside `addProductRating` (lines 328–347):
`findIndex` of the rater's existing entry, in-place assignment of the new
entry when found, `push` otherwise. -/
def ratingsAfterSubmit (userId : String) (a : Rating) (l : List Rating) :
    List Rating :=
  match l.findIdx? (fun r => r.user == userId) with
  | some i => l.set i a
  | none => l ++ [a]

/-- `addProductRating` (lines 312–361): 404 when absent; replace the rater's
existing entry in place (`findIndex` + assignment, with a fresh `Date.now()`)
or push a new entry (whose `date` defaults to `Date.now`); then
`updateAverageRating()` recomputes the mean and saves. -/
def addProductRating (findProduct : Option Product) (userId : String)
    (ratingVal : ℚ) (review : Option String) (now : Nat) : OpResult :=
  match findProduct with
  | none =>
      { response := .err404 "Product not found",
        productLoaded := true, uploadsAttempted := [], deletesAttempted := [],
        saved := none, recordDeleted := false }
  | some p =>
    let newRating : Rating := ⟨userId, ratingVal, review, now⟩
    let newRatings := ratingsAfterSubmit userId newRating p.ratings
    let p' := updateAverageRating { p with ratings := newRatings }
    { response := .ok200 p',
      productLoaded := true, uploadsAttempted := [], deletesAttempted := [],
      saved := some p', recordDeleted := false }

/-- The update document of `updateProduct` restricted to the fields the
final-price invariant is about. -/
structure UpdateBody where
  price : Option ℚ := none
  discount : Option ℚ := none
  finalPrice : Option ℚ := none
deriving Repr, DecidableEq

/-- `findByIdAndUpdate` applies the update document to the found record.
Update middleware, not document middleware, runs here: the `pre save` hook
is NOT executed. -/
def applyUpdate (p : Product) (b : UpdateBody) : Product :=
  { p with
    price := b.price.getD p.price,
    discount := b.discount.getD p.discount,
    finalPrice := match b.finalPrice with | some v => some v | none => p.finalPrice }

/-- `updateProduct` (lines 117–142): `findByIdAndUpdate` with the request
body; 404 when absent; the updated document is persisted as-is (no
`pre save` hook runs for a `findByIdAndUpdate` write). -/
def updateProduct (findProduct : Option Product) (body : UpdateBody) : OpResult :=
  match findProduct with
  | none =>
      { response := .err404 "Product not found",
        productLoaded := true, uploadsAttempted := [], deletesAttempted := [],
        saved := none, recordDeleted := false }
  | some p =>
    let p' := applyUpdate p body
    { response := .ok200 p',
      productLoaded := true, uploadsAttempted := [], deletesAttempted := [],
      saved := some p', recordDeleted := false }

/-- The concrete product used for the C7 failing input: price 100, no
discount, `finalPrice` consistent at 100. -/
def P7 : Product :=
  { price := 100, discount := 0, finalPrice := some 100, images := [],
    ratings := [], averageRating := 0 }

/-- A successful upload result for the buffer token `n`. -/
def imgFor (n : String) : Image :=
  { id := "id_" ++ n, url := "http://img/" ++ n, public_id := some ("pid_" ++ n) }

/-- Upload oracle in which only file `f2` fails. -/
def uploadScenarioA : String → Except String Image := fun f =>
  if f == "f2" then .error "boom" else .ok (imgFor f)

/-- Upload oracle in which `f2` and `f3` both fail (`f2` first). -/
def uploadScenarioB : String → Except String Image := fun f =>
  if f == "f1" then .ok (imgFor f)
  else if f == "f2" then .error "boom"
  else .error "also failed"

/-- The concrete product used for the C2 counterexample. -/
def P2 : Product :=
  { price := 10, discount := 0, finalPrice := some 10, images := [],
    ratings := [], averageRating := 0 }

/-- The concrete product used for the C4 counterexample: three images whose
assets are `p1`, `p2`, `p3`. -/
def P4 : Product :=
  { price := 10, discount := 0, finalPrice := some 10,
    images := [{ id := "i1", url := "u1", public_id := some "p1" },
               { id := "i2", url := "u2", public_id := some "p2" },
               { id := "i3", url := "u3", public_id := some "p3" }],
    ratings := [], averageRating := 0 }

/-- Deletion oracle in which only the asset `p2` hard-fails. -/
def delFailP2 : String → DeleteOutcome := fun pid =>
  if pid == "p2" then .hardFail "netfail" else .ok

/-- Deletion oracle in which only the asset `pa` hard-fails. -/
def delFailPA : String → DeleteOutcome := fun pid =>
  if pid == "pa" then .hardFail "boom" else .ok

/-- Upload oracle in which every upload succeeds. -/
def uploadOk : String → Except String Image := fun f => .ok (imgFor f)

/-- The concrete product used for the C3 counterexample: images `idA`
(asset `pa`) and `idB` (asset `pb`). -/
def P3 : Product :=
  { price := 10, discount := 0, finalPrice := some 10,
    images := [{ id := "idA", url := "uA", public_id := some "pa" },
               { id := "idB", url := "uB", public_id := some "pb" }],
    ratings := [], averageRating := 0 }

/-- Recursive form of the `findIndex` + in-place-assignment-or-push update
of the rating list, used to reason about `ratingsAfterSubmit`. -/
def replaceOrAppend (q : Rating → Bool) (a : Rating) : List Rating → List Rating
  | [] => [a]
  | r :: rs => if q r then a :: rs else r :: replaceOrAppend q a rs

/-! ## Helper lemmas -/

theorem updateAverageRating_ratings (p : Product) :
    (updateAverageRating p).ratings = p.ratings := rfl

theorem updateAverageRating_avg (p : Product) :
    (updateAverageRating p).averageRating = recomputeAverageRating p.ratings := rfl

theorem promiseAll_isError_of_mem {α : Type} (upload : String → Except String α)
    (fs : List String) (f : String) (hf : f ∈ fs) (e : String)
    (he : upload f = .error e) :
    ∃ e', promiseAll (fs.map upload) = .error e' := by
  induction fs with
  | nil => cases hf
  | cons x xs ih =>
    rcases List.mem_cons.mp hf with h | h
    · subst h
      refine ⟨e, ?_⟩
      rw [List.map_cons, he]
      rfl
    · rw [List.map_cons]
      cases hx : upload x with
      | error e0 => exact ⟨e0, rfl⟩
      | ok a =>
        obtain ⟨e', he'⟩ := ih h
        exact ⟨e', by simp only [promiseAll, he']⟩

/-! ## Claim theorems -/

/-- C8: `recomputeFinalPrice` is the pure rule
`discount > 0 ? price - price*(discount/100) : price`; for every price
`p ≥ 0` and discount `d ∈ [0,100]` it sends discount 0 to `p`, discount 100
to 0, and `(100, 25)` to 75; and `save` always stores
`finalPrice = recomputeFinalPrice price discount`. -/
theorem recomputeFinalPrice_props (p d : ℚ) (hp : 0 ≤ p) (hd0 : 0 ≤ d)
    (hd1 : d ≤ 100) :
    recomputeFinalPrice p 0 = p ∧
    recomputeFinalPrice p 100 = 0 ∧
    recomputeFinalPrice 100 25 = 75 ∧
    ∀ q : Product,
      (saveProduct q).finalPrice = some (recomputeFinalPrice q.price q.discount) := by
  refine ⟨?_, ?_, ?_, fun q => rfl⟩
  · simp [recomputeFinalPrice]
  · simp [recomputeFinalPrice]
  · norm_num [recomputeFinalPrice]

/-- C8 witness: the properties at price 7, discount 30. -/
theorem recomputeFinalPrice_props_witness :
    recomputeFinalPrice 7 0 = 7 ∧
    recomputeFinalPrice 7 100 = 0 ∧
    recomputeFinalPrice 100 25 = 75 ∧
    ∀ q : Product,
      (saveProduct q).finalPrice = some (recomputeFinalPrice q.price q.discount) :=
  recomputeFinalPrice_props 7 30 (by norm_num) (by norm_num) (by norm_num)

/-- C9: `recomputeAverageRating` returns 0 on an empty rating list and the
mean `sum/count` otherwise (so scores 3 and 5 average to 4), and the product
state persisted by `addProductRating` always carries
`averageRating = recomputeAverageRating` of its rating list. -/
theorem recomputeAverageRating_props (p : Product) (userId : String) (v : ℚ)
    (review : Option String) (now : Nat) (r1 r2 : Rating)
    (h1 : r1.rating = 3) (h2 : r2.rating = 5) :
    recomputeAverageRating [] = 0 ∧
    recomputeAverageRating [r1, r2] = 4 ∧
    ∀ p', (addProductRating (some p) userId v review now).saved = some p' →
      p'.averageRating = recomputeAverageRating p'.ratings := by
  refine ⟨rfl, ?_, ?_⟩
  · simp [recomputeAverageRating, h1, h2]
    norm_num
  · intro p' hp'
    simp only [addProductRating, Option.some.injEq] at hp'
    subst hp'
    rw [updateAverageRating_avg, updateAverageRating_ratings]

/-- C9 witness: the properties at concrete ratings and a concrete product. -/
theorem recomputeAverageRating_props_witness :
    recomputeAverageRating [] = 0 ∧
    recomputeAverageRating
      [{ user := "a", rating := 3, review := none, date := 0 },
       { user := "b", rating := 5, review := none, date := 0 }] = 4 ∧
    ∀ p', (addProductRating
        (some { price := 10, discount := 0, finalPrice := some 10, images := [],
                ratings := [], averageRating := 0 })
        "a" 4 none 7).saved = some p' →
      p'.averageRating = recomputeAverageRating p'.ratings :=
  recomputeAverageRating_props
    { price := 10, discount := 0, finalPrice := some 10, images := [],
      ratings := [], averageRating := 0 }
    "a" 4 none 7
    { user := "a", rating := 3, review := none, date := 0 }
    { user := "b", rating := 5, review := none, date := 0 } rfl rfl

/-- C7: failing input — `updateProduct` with body `{price: 200}` persists
price 200 while `finalPrice` stays 100, because `findByIdAndUpdate` does not
run the `pre save` hook; the persisted `finalPrice` disagrees with
`recomputeFinalPrice` of the persisted price and discount. -/
theorem updateProduct_finalPrice_out_of_sync :
    ∃ p', (updateProduct (some P7) { price := some 200 }).saved = some p' ∧
      p'.price = 200 ∧ p'.discount = 0 ∧ p'.finalPrice = some 100 ∧
      p'.finalPrice ≠ some (recomputeFinalPrice p'.price p'.discount) := by
  refine ⟨applyUpdate P7 { price := some 200 }, rfl, rfl, rfl, rfl, ?_⟩
  simp [applyUpdate, P7, recomputeFinalPrice]

/-- C10: calling `uploadProductImages` with a missing or empty file list
answers 400 before `findById` runs (the result does not depend on the
product), with no upload call, no save, and no record deletion. -/
theorem uploadProductImages_rejects_missing_or_empty_files
    (findProduct : Option Product) (upload : String → Except String Image) :
    uploadProductImages findProduct none upload =
      { response := .err400 "Please upload at least one image",
        productLoaded := false, uploadsAttempted := [], deletesAttempted := [],
        saved := none, recordDeleted := false } ∧
    uploadProductImages findProduct (some []) upload =
      { response := .err400 "Please upload at least one image",
        productLoaded := false, uploadsAttempted := [], deletesAttempted := [],
        saved := none, recordDeleted := false } :=
  ⟨rfl, rfl⟩

/-- C1: when the product exists and the file list is non-empty, if any
single upload fails, `uploadProductImages` answers 500 and performs no save:
no subset of the uploaded images is appended to the persisted image list. -/
theorem uploadProductImages_no_partial_persist (p : Product) (fs : List String)
    (upload : String → Except String Image) (hne : fs ≠ [])
    (hfail : ∃ f ∈ fs, ∃ e, upload f = .error e) :
    (∃ e, (uploadProductImages (some p) (some fs) upload).response = .err500 e) ∧
    (uploadProductImages (some p) (some fs) upload).saved = none := by
  obtain ⟨f, hf, e, he⟩ := hfail
  obtain ⟨e', he'⟩ := promiseAll_isError_of_mem upload fs f hf e he
  have hE : fs.isEmpty = false := by
    simpa [List.isEmpty_iff] using hne
  refine ⟨⟨e', ?_⟩, ?_⟩ <;> simp [uploadProductImages, hE, he']

/-- C1 witness: a one-file upload whose upload fails. -/
theorem uploadProductImages_no_partial_persist_witness :
    (∃ e, (uploadProductImages
        (some { price := 10, discount := 0, finalPrice := some 10, images := [],
                ratings := [], averageRating := 0 })
        (some ["f1"]) (fun _ => .error "boom")).response = .err500 e) ∧
    (uploadProductImages
        (some { price := 10, discount := 0, finalPrice := some 10, images := [],
                ratings := [], averageRating := 0 })
        (some ["f1"]) (fun _ => .error "boom")).saved = none :=
  uploadProductImages_no_partial_persist _ ["f1"] (fun _ => .error "boom")
    (by simp) ⟨"f1", by simp, "boom", rfl⟩

/-- C2 counterexample: two runs over files `[f1,f2,f3]` in which a different
set of uploads succeeds (file 3 succeeds under scenario A and fails under
scenario B) produce identical observable results, so the failure response of
`uploadProductImages` cannot convey which of the input files succeeded and
which failed. -/
theorem uploadProductImages_error_indistinguishable :
    uploadProductImages (some P2) (some ["f1", "f2", "f3"]) uploadScenarioA =
      uploadProductImages (some P2) (some ["f1", "f2", "f3"]) uploadScenarioB ∧
    uploadScenarioA "f3" ≠ uploadScenarioB "f3" := by
  refine ⟨rfl, ?_⟩
  simp [uploadScenarioA, uploadScenarioB]

/-- C2 amended: when the product exists, the file list is non-empty, and the
awaited `Promise.all` rejects with message `e`, every upload call is still
issued (all promises are created before awaiting), but the response is a
plain 500 carrying only that first rejection message — it does not report
which inputs succeeded — and nothing is saved. -/
theorem uploadProductImages_attempts_all (p : Product) (fs : List String)
    (upload : String → Except String Image) (hne : fs ≠ []) (e : String)
    (hfail : promiseAll (fs.map upload) = .error e) :
    (uploadProductImages (some p) (some fs) upload).uploadsAttempted = fs ∧
    (uploadProductImages (some p) (some fs) upload).response = .err500 e ∧
    (uploadProductImages (some p) (some fs) upload).saved = none := by
  have hE : fs.isEmpty = false := by
    simpa [List.isEmpty_iff] using hne
  refine ⟨?_, ?_, ?_⟩ <;> simp [uploadProductImages, hE, hfail]

/-- C2 amended witness: scenario A over `[f1,f2,f3]` attempts all three
uploads and answers 500 with the single message of the failed upload. -/
theorem uploadProductImages_attempts_all_witness :
    (uploadProductImages (some P2) (some ["f1", "f2", "f3"])
        uploadScenarioA).uploadsAttempted = ["f1", "f2", "f3"] ∧
    (uploadProductImages (some P2) (some ["f1", "f2", "f3"])
        uploadScenarioA).response = .err500 "boom" ∧
    (uploadProductImages (some P2) (some ["f1", "f2", "f3"])
        uploadScenarioA).saved = none :=
  uploadProductImages_attempts_all P2 ["f1", "f2", "f3"] uploadScenarioA
    (by simp) "boom" rfl

theorem deleteImagesSeq_no_hardFail (del : String → DeleteOutcome)
    (imgs : List Image)
    (h : ∀ img ∈ imgs, ∀ pid, img.public_id = some pid →
      ∀ e, del pid ≠ .hardFail e) :
    (deleteImagesSeq del imgs).2 = none := by
  induction imgs with
  | nil => rfl
  | cons img rest ih =>
    have hrest : (deleteImagesSeq del rest).2 = none :=
      ih (fun i hi => h i (List.mem_cons_of_mem _ hi))
    cases hpid : img.public_id with
    | none => simp [deleteImagesSeq, hpid, hrest]
    | some pid =>
      cases hdel : del pid with
      | hardFail e =>
        exact absurd hdel (h img (List.mem_cons_self _ _) pid hpid e)
      | ok => simp [deleteImagesSeq, hpid, hdel, hrest]
      | notFound => simp [deleteImagesSeq, hpid, hdel, hrest]

/-- C4 counterexample: when one of three image deletions hard-fails,
`deleteProduct` answers 500 and `product.deleteOne()` never runs — the
product record is NOT removed, contrary to the claim. -/
theorem deleteProduct_blocked_by_asset_failure :
    (deleteProduct (some P4) delFailP2).recordDeleted = false ∧
    (deleteProduct (some P4) delFailP2).response = .err500 "netfail" :=
  ⟨rfl, rfl⟩

/-- C4 amended: `deleteProduct` removes the product record only when no
per-image asset deletion hard-fails (not-found results do not block
removal); the first hard failure is caught and answered with 500 before the
record is removed. -/
theorem deleteProduct_amended (p : Product) (del : String → DeleteOutcome) :
    ((∀ img ∈ p.images, ∀ pid, img.public_id = some pid →
        ∀ e, del pid ≠ .hardFail e) →
      (deleteProduct (some p) del).recordDeleted = true ∧
      (deleteProduct (some p) del).response = .okMsg "Product deleted successfully") ∧
    (∀ e, (deleteImagesSeq del p.images).2 = some e →
      (deleteProduct (some p) del).recordDeleted = false ∧
      (deleteProduct (some p) del).response = .err500 e ∧
      (deleteProduct (some p) del).saved = none) := by
  constructor
  · intro h
    have hnone := deleteImagesSeq_no_hardFail del p.images h
    constructor <;> simp [deleteProduct, hnone]
  · intro e he
    refine ⟨?_, ?_, ?_⟩ <;> simp [deleteProduct, he]

/-- C4 amended witness: with every deletion resolving (one `not found`), the
record is removed; with a hard failure on `p2`, it is not. -/
theorem deleteProduct_amended_witness :
    (deleteProduct (some P4) (fun pid => if pid == "p3" then .notFound else .ok)).recordDeleted = true ∧
    (deleteProduct (some P4) delFailP2).recordDeleted = false := by
  constructor
  · refine ((deleteProduct_amended P4
      (fun pid => if pid == "p3" then .notFound else .ok)).1 ?_).1
    intro img _ pid _ e
    by_cases h : (pid == "p3") = true <;> simp [h]
  · exact ((deleteProduct_amended P4 delFailP2).2 "netfail" rfl).1

/-- C5: `deleteProductImage` answers 404 when the product is absent or no
image carries the requested sub-id; and when the asset-store deletion
hard-fails (any rejection — a resolved `not found` is not a rejection), it
answers 500 with nothing saved: the local image entry is not removed, so the
operation is retryable. -/
theorem deleteProductImage_failure_semantics (p : Product) (imageId : String)
    (del : String → DeleteOutcome) :
    (deleteProductImage none imageId del).response = .err404 "Product not found" ∧
    (p.images.find? (fun img => img.id == imageId) = none →
      (deleteProductImage (some p) imageId del).response = .err404 "Image not found" ∧
      (deleteProductImage (some p) imageId del).saved = none) ∧
    (∀ img pid e, p.images.find? (fun img => img.id == imageId) = some img →
      img.public_id = some pid → del pid = .hardFail e →
      (deleteProductImage (some p) imageId del).response = .err500 e ∧
      (deleteProductImage (some p) imageId del).saved = none) := by
  refine ⟨rfl, ?_, ?_⟩
  · intro h
    constructor <;> simp [deleteProductImage, h]
  · intro img pid e h1 h2 h3
    constructor <;> simp [deleteProductImage, h1, h2, h3]

/-- C5 witness: on a product holding one image `idA` (asset `pa`) whose
deletion hard-fails, asking for `idA` answers 500 with nothing saved, and
asking for the absent `idZ` answers 404. -/
theorem deleteProductImage_failure_semantics_witness :
    (deleteProductImage
      (some { price := 10, discount := 0, finalPrice := some 10,
              images := [{ id := "idA", url := "uA", public_id := some "pa" }],
              ratings := [], averageRating := 0 })
      "idA" (fun _ => .hardFail "boom")).response = .err500 "boom" ∧
    (deleteProductImage
      (some { price := 10, discount := 0, finalPrice := some 10,
              images := [{ id := "idA", url := "uA", public_id := some "pa" }],
              ratings := [], averageRating := 0 })
      "idZ" (fun _ => .hardFail "boom")).response = .err404 "Image not found" := by
  constructor
  · exact ((deleteProductImage_failure_semantics
      { price := 10, discount := 0, finalPrice := some 10,
        images := [{ id := "idA", url := "uA", public_id := some "pa" }],
        ratings := [], averageRating := 0 }
      "idA" (fun _ => .hardFail "boom")).2.2
      { id := "idA", url := "uA", public_id := some "pa" } "pa" "boom"
      rfl rfl rfl).1
  · exact ((deleteProductImage_failure_semantics
      { price := 10, discount := 0, finalPrice := some 10,
        images := [{ id := "idA", url := "uA", public_id := some "pa" }],
        ratings := [], averageRating := 0 }
      "idZ" (fun _ => .hardFail "boom")).2.1 rfl).1

theorem updateImagesAddPhase_deletes (p1 : Product) (calls : List String)
    (files : Option (List String)) (upload : String → Except String Image) :
    (updateImagesAddPhase p1 calls files upload).deletesAttempted = calls := by
  unfold updateImagesAddPhase
  cases files with
  | none => rfl
  | some fs =>
    by_cases h : fs.isEmpty
    · simp [h]
    · simp only [h, if_false, Bool.false_eq_true]
      cases promiseAll (fs.map upload) <;> rfl

theorem updateImagesAddPhase_saved_of_ok (p1 : Product) (calls : List String)
    (fs : List String) (imgs : List Image)
    (upload : String → Except String Image) (hne : fs ≠ [])
    (hok : promiseAll (fs.map upload) = .ok imgs) :
    (updateImagesAddPhase p1 calls (some fs) upload).saved =
      some (saveProduct { p1 with images := p1.images ++ imgs }) := by
  have hE : fs.isEmpty = false := by
    simpa [List.isEmpty_iff] using hne
  simp [updateImagesAddPhase, hE, hok]

/-- C3 counterexample: with `deleteIds = [idA, idB]` where deleting `pa`
hard-fails and `pb` succeeds, plus one new file that would upload
successfully, `updateProductImages` answers 500, never starts the addition
phase (no upload call is made), and persists nothing — rather than
persisting `idB`'s deletion plus the new image and reporting `idA`'s
failure. -/
theorem updateProductImages_aborts_on_deletion_failure :
    (updateProductImages (some P3) (some ["idA", "idB"]) (some ["fNew"])
      uploadOk delFailPA).response = .err500 "boom" ∧
    (updateProductImages (some P3) (some ["idA", "idB"]) (some ["fNew"])
      uploadOk delFailPA).uploadsAttempted = [] ∧
    (updateProductImages (some P3) (some ["idA", "idB"]) (some ["fNew"])
      uploadOk delFailPA).saved = none :=
  ⟨rfl, rfl, rfl⟩

/-- C3 amended: when the product exists and `deleteIds` is non-empty, the
asset-store delete call is issued for every requested id that resolves to an
image with a `public_id` (one failure does not prevent the other calls from
being issued); but if any of them hard-fails, the whole operation answers
500 with only the first failure's message — the local image list is not
filtered, the addition phase is not performed, and nothing is saved.  Only
when no deletion hard-fails are all requested ids removed locally, the new
files uploaded, and the result saved. -/
theorem updateProductImages_amended (p : Product) (ids : List String)
    (files : Option (List String)) (upload : String → Except String Image)
    (del : String → DeleteOutcome) (hids : ids ≠ []) :
    (updateProductImages (some p) (some ids) files upload del).deletesAttempted =
      delPhaseCalls p ids ∧
    (∀ e, firstHardFail del (delPhaseCalls p ids) = some e →
      (updateProductImages (some p) (some ids) files upload del).response = .err500 e ∧
      (updateProductImages (some p) (some ids) files upload del).saved = none ∧
      (updateProductImages (some p) (some ids) files upload del).uploadsAttempted = []) ∧
    (∀ fs imgs, firstHardFail del (delPhaseCalls p ids) = none → files = some fs →
      fs ≠ [] → promiseAll (fs.map upload) = .ok imgs →
      (updateProductImages (some p) (some ids) files upload del).saved =
        some (saveProduct { p with images :=
          (p.images.filter (fun img => !(ids.contains img.id))) ++ imgs })) := by
  have hE : ids.isEmpty = false := by
    simpa [List.isEmpty_iff] using hids
  refine ⟨?_, ?_, ?_⟩
  · cases hfh : firstHardFail del (delPhaseCalls p ids) with
    | some e => simp [updateProductImages, hE, hfh]
    | none => simp [updateProductImages, hE, hfh, updateImagesAddPhase_deletes]
  · intro e hfh
    refine ⟨?_, ?_, ?_⟩ <;> simp [updateProductImages, hE, hfh]
  · intro fs imgs hfh hfiles hne hok
    subst hfiles
    simp only [updateProductImages, hE, Bool.false_eq_true, if_false, hfh]
    exact updateImagesAddPhase_saved_of_ok _ _ fs imgs upload hne hok

/-- C3 amended witness: deleting `idB` (whose asset deletion succeeds) while
adding one file removes `idB`, appends the uploaded image, and saves; the
delete call for `pb` was issued. -/
theorem updateProductImages_amended_witness :
    (updateProductImages (some P3) (some ["idB"]) (some ["fNew"])
      uploadOk (fun _ => .ok)).deletesAttempted = ["pb"] ∧
    (updateProductImages (some P3) (some ["idB"]) (some ["fNew"])
      uploadOk (fun _ => .ok)).saved =
      some (saveProduct { P3 with images :=
        [{ id := "idA", url := "uA", public_id := some "pa" }, imgFor "fNew"] }) := by
  have h := updateProductImages_amended P3 ["idB"] (some ["fNew"]) uploadOk
    (fun _ => .ok) (by simp)
  refine ⟨?_, ?_⟩
  · rw [h.1]; rfl
  · rw [h.2.2 ["fNew"] [imgFor "fNew"] rfl rfl (by simp) rfl]; rfl

theorem findIdx?_shift (q : Rating → Bool) :
    ∀ (l : List Rating) (n : Nat),
      l.findIdx? q (n + 1) = (l.findIdx? q n).map (· + 1) := by
  intro l
  induction l with
  | nil => intro n; simp [List.findIdx?_nil]
  | cons r rs ih =>
    intro n
    rw [List.findIdx?_cons, List.findIdx?_cons]
    by_cases h : q r
    · simp [h]
    · simp only [h, Bool.false_eq_true, if_false]
      exact ih (n + 1)

theorem ratingsAfterSubmit_of_some (userId : String) (a : Rating)
    (l : List Rating) (i : Nat)
    (h : l.findIdx? (fun r => r.user == userId) = some i) :
    ratingsAfterSubmit userId a l = l.set i a := by
  unfold ratingsAfterSubmit
  rw [h]

theorem ratingsAfterSubmit_of_none (userId : String) (a : Rating)
    (l : List Rating)
    (h : l.findIdx? (fun r => r.user == userId) = none) :
    ratingsAfterSubmit userId a l = l ++ [a] := by
  unfold ratingsAfterSubmit
  rw [h]

theorem ratingsAfterSubmit_eq_replaceOrAppend (userId : String) (a : Rating)
    (l : List Rating) :
    ratingsAfterSubmit userId a l =
      replaceOrAppend (fun r => r.user == userId) a l := by
  induction l with
  | nil => rfl
  | cons r rs ih =>
    by_cases h : (r.user == userId) = true
    · rw [ratingsAfterSubmit_of_some userId a (r :: rs) 0
        (by rw [List.findIdx?_cons]; simp [h])]
      simp [replaceOrAppend, h]
    · cases hidx : rs.findIdx? (fun x => x.user == userId) with
      | none =>
        rw [ratingsAfterSubmit_of_none userId a (r :: rs)
          (by rw [List.findIdx?_cons, findIdx?_shift]; simp [h, hidx])]
        rw [ratingsAfterSubmit_of_none userId a rs hidx] at ih
        simp [replaceOrAppend, h, ih]
      | some i =>
        rw [ratingsAfterSubmit_of_some userId a (r :: rs) (i + 1)
          (by rw [List.findIdx?_cons, findIdx?_shift]; simp [h, hidx])]
        rw [ratingsAfterSubmit_of_some userId a rs i hidx] at ih
        simp [replaceOrAppend, h, ih]

theorem filter_replaceOrAppend_self (q : Rating → Bool) (a : Rating)
    (ha : q a = true) :
    ∀ l : List Rating, (l.filter q).length ≤ 1 →
      (replaceOrAppend q a l).filter q = [a] := by
  intro l
  induction l with
  | nil => intro _; simp [replaceOrAppend, List.filter, ha]
  | cons r rs ih =>
    intro h
    by_cases hq : q r
    · have hrs : rs.filter q = [] := by
        rw [List.filter_cons, if_pos hq] at h
        simp only [List.length_cons] at h
        have h0 : (rs.filter q).length = 0 := by omega
        exact List.length_eq_zero.mp h0
      simp [replaceOrAppend, hq, List.filter_cons, ha, hrs]
    · have h' : (rs.filter q).length ≤ 1 := by
        rwa [List.filter_cons, if_neg hq] at h
      simp [replaceOrAppend, hq, List.filter_cons, ih h']

theorem filter_not_replaceOrAppend (q : Rating → Bool) (a : Rating)
    (ha : q a = true) :
    ∀ l : List Rating,
      (replaceOrAppend q a l).filter (fun r => !(q r)) =
        l.filter (fun r => !(q r)) := by
  intro l
  induction l with
  | nil => simp [replaceOrAppend, List.filter, ha]
  | cons r rs ih =>
    by_cases hq : q r
    · simp [replaceOrAppend, hq, List.filter_cons, ha]
    · simp [replaceOrAppend, hq, List.filter_cons, ih]

theorem addProductRating_saved_ratings (p : Product) (userId : String)
    (v : ℚ) (review : Option String) (now : Nat) :
    ∃ p', (addProductRating (some p) userId v review now).saved = some p' ∧
      p'.ratings = replaceOrAppend (fun r => r.user == userId)
        { user := userId, rating := v, review := review, date := now } p.ratings := by
  refine ⟨_, rfl, ?_⟩
  rw [updateAverageRating_ratings]
  exact ratingsAfterSubmit_eq_replaceOrAppend _ _ _

/-- C6: when the product exists and holds at most one rating entry for
`userId`, after `addProductRating` the persisted rating list holds exactly
one entry for `userId`, carrying the newly submitted score, review and
timestamp (the old timestamp is discarded); the other raters' entries are
unchanged; and structurally the update is an in-place replacement at the
found index when the rater already had a rating, and an append of the fresh
entry otherwise. -/
theorem addProductRating_one_per_rater (p : Product) (userId : String)
    (v : ℚ) (review : Option String) (now : Nat)
    (hone : (p.ratings.filter (fun r => r.user == userId)).length ≤ 1) :
    ∃ p', (addProductRating (some p) userId v review now).saved = some p' ∧
      p'.ratings.filter (fun r => r.user == userId) =
        [{ user := userId, rating := v, review := review, date := now }] ∧
      p'.ratings.filter (fun r => !(r.user == userId)) =
        p.ratings.filter (fun r => !(r.user == userId)) ∧
      (match p.ratings.findIdx? (fun r => r.user == userId) with
       | some i => p'.ratings = p.ratings.set i
           { user := userId, rating := v, review := review, date := now }
       | none => p'.ratings = p.ratings ++
           [{ user := userId, rating := v, review := review, date := now }]) := by
  have ha : ((⟨userId, v, review, now⟩ : Rating).user == userId) = true := by
    simp
  obtain ⟨p', hp', hr⟩ := addProductRating_saved_ratings p userId v review now
  refine ⟨p', hp', ?_, ?_, ?_⟩
  · rw [hr]
    exact filter_replaceOrAppend_self _ _ ha p.ratings hone
  · rw [hr]
    exact filter_not_replaceOrAppend _ _ ha p.ratings
  · cases hidx : p.ratings.findIdx? (fun r => r.user == userId) with
    | some i =>
      rw [hr, ← ratingsAfterSubmit_eq_replaceOrAppend]
      exact ratingsAfterSubmit_of_some userId _ p.ratings i hidx
    | none =>
      rw [hr, ← ratingsAfterSubmit_eq_replaceOrAppend]
      exact ratingsAfterSubmit_of_none userId _ p.ratings hidx

/-- C6 witness: rater `u1`, who already rated 4, resubmits 5 with a new
review at time 42; the persisted list holds exactly the new entry for `u1`
and the other rater's entry is untouched. -/
theorem addProductRating_one_per_rater_witness :
    ∃ p', (addProductRating
        (some { price := 10, discount := 0, finalPrice := some 10, images := [],
                ratings := [{ user := "u1", rating := 4, review := none, date := 1 },
                            { user := "u2", rating := 2, review := none, date := 2 }],
                averageRating := 3 })
        "u1" 5 (some "great stuff") 42).saved = some p' ∧
      p'.ratings.filter (fun r => r.user == "u1") =
        [{ user := "u1", rating := 5, review := some "great stuff", date := 42 }] ∧
      p'.ratings.filter (fun r => !(r.user == "u1")) =
        [{ user := "u2", rating := 2, review := none, date := 2 }] := by
  obtain ⟨p', h1, h2, h3, _⟩ := addProductRating_one_per_rater
    { price := 10, discount := 0, finalPrice := some 10, images := [],
      ratings := [{ user := "u1", rating := 4, review := none, date := 1 },
                  { user := "u2", rating := 2, review := none, date := 2 }],
      averageRating := 3 }
    "u1" 5 (some "great stuff") 42 (by simp)
  exact ⟨p', h1, h2, by rw [h3]; rfl⟩
